import Mathlib

/-!
Verification of the MKIDGen3 feedline capture scheduler
(`mkidgen3/server/feedline_server.py` and `mkidgen3/objects.py`).

The embedding models:
 * the configuration compatibility relation (`FLConfigMixin.__eq__`,
   `FLMetaConfigMixin.__eq__` in `objects.py`),
 * the `CaptureRequest` entity with its status/data channels,
 * the `plram_cap` engineering-tap worker,
 * the scheduler admission loop of `FeedlineReadout.main` together with
   `FeedlineReadout._cleanup_completed`.

`FeedlineConfig` and `FeedlineConfigManager` live in
`mkidgen3/server/feedline_objects.py`, which is not part of the source tree;
those definitions are modelled from the specification (sections 3, 4.1, 4.2)
and are marked as such below.

ZMQ transport sends are modelled as reliable appends to per-request event
lists; socket handles are modelled as numeric generations so that re-opening
a channel is observable.  Python exceptions are modelled with `PyErr`.
-/

namespace Mkidgen3

/-- Python-level exceptions that the modelled code can raise. -/
inductive PyErr where
  | attributeError (msg : String)
  | runtimeError (msg : String)
  | keyError (key : String)
  | typeError (msg : String)
deriving Repr, DecidableEq

/-! ## Configuration model (`objects.py`) -/

/-- `FLConfigMixin.__eq__`: leaf configs compare equal iff their settings
hashes are equal (the method hashes both sides and compares); a leaf config
is therefore modelled by its settings hash. -/
def flConfigEq (a b : Nat) : Bool := a == b

/-- `FLMetaConfigMixin.__eq__`: iterates the fields of `self` (sub-configs,
already-hashed ints, or `None`); a `None` on either side matches ("if either
is None we match"); otherwise the two hashes must be equal.  A meta config is
modelled as the list of its fields in `__dict__` order, each field either
`none` (unset) or `some h` with `h` the sub-config hash.  Iterating past the
end of `other`'s attributes (an `AttributeError` in Python) is modelled as a
non-match; same-class configs always have equal field lists. -/
def flMetaEq : List (Option Nat) → List (Option Nat) → Bool
  | [], _ => true
  | _ :: _, [] => false
  | v :: vs, w :: ws =>
    match v, w with
    | none, _ => flMetaEq vs ws
    | _, none => flMetaEq vs ws
    | some x, some y => x == y && flMetaEq vs ws

/-! ## FeedlineConfig and FeedlineConfigManager (modelled from the spec) -/

/-- Modelled from the spec: a sub-configuration slot of a `FeedlineConfig`
(`mkidgen3/server/feedline_objects.py`, absent from the source tree) is
either a full value ("taught" content, carrying its identity hash) or a
hash-only reference exchanged after the full value was taught once. -/
inductive ConfigEntry where
  | full (h : Nat)
  | hashOnly (h : Nat)
deriving Repr, DecidableEq, BEq

/-- The identity hash of an entry (spec section 3: a configuration has a
stable identity hash derived from its field values). -/
def ConfigEntry.entryHash : ConfigEntry → Nat
  | .full h => h
  | .hashOnly h => h

/-- Modelled from the spec: `FeedlineConfig` (absent from the source tree) is
a tree of optional sub-configurations; each slot is unset (`none`) or holds a
`ConfigEntry`. -/
structure FeedlineConfig where
  entries : List (Option ConfigEntry)
deriving Repr, DecidableEq, BEq

/-- The hash view of a config's slots, used by compatibility checks. -/
def FeedlineConfig.toHashes (c : FeedlineConfig) : List (Option Nat) :=
  c.entries.map (Option.map ConfigEntry.entryHash)

/-- Modelled from the spec: the field-wise merge of two configurations
(spec 4.1: unset-wins-nothing, concrete-wins; total on compatible inputs). -/
def mergeEntries : List (Option ConfigEntry) → List (Option ConfigEntry) →
    List (Option ConfigEntry)
  | [], ws => ws
  | vs, [] => vs
  | v :: vs, w :: ws => (v <|> w) :: mergeEntries vs ws

/-- Modelled from the spec: `FeedlineConfigManager`
(`mkidgen3/server/feedline_objects.py`, absent from the source tree): the set
of hashes taught in full (`learn`/`unlearned_hashes`) and the mapping from
outstanding request id to its required configuration (`add`/`pop`). -/
structure FeedlineConfigManager where
  learned : List Nat
  required : List (Nat × FeedlineConfig)
deriving Repr, DecidableEq

/-- Modelled from the spec: `learn(config)` records every sub-configuration
whose full value is present so later hash-only references resolve. -/
def FeedlineConfigManager.learn (m : FeedlineConfigManager)
    (c : FeedlineConfig) : FeedlineConfigManager :=
  { m with
    learned := m.learned ++ c.entries.filterMap fun e =>
      match e with
      | some (.full h) => if m.learned.contains h then none else some h
      | _ => none }

/-- Modelled from the spec: `unlearned_hashes(config)` — the hash-only
references in `config` that were never taught in full. -/
def FeedlineConfigManager.unlearned_hashes (m : FeedlineConfigManager)
    (c : FeedlineConfig) : List Nat :=
  c.entries.filterMap fun e =>
    match e with
    | some (.hashOnly h) => if m.learned.contains h then none else some h
    | _ => none

/-- Modelled from the spec: `add(id, config)` records `id → config` in the
pot of outstanding requirements (the caller separately applies the resulting
effective configuration to the hardware). -/
def FeedlineConfigManager.add (m : FeedlineConfigManager) (id : Nat)
    (c : FeedlineConfig) : FeedlineConfigManager :=
  { m with required := m.required ++ [(id, c)] }

/-- Modelled from the spec: `required()` — the effective configuration, the
field-wise merge of all outstanding requests' configurations. -/
def FeedlineConfigManager.requiredCfg (m : FeedlineConfigManager) :
    List (Option ConfigEntry) :=
  m.required.foldl (fun acc p => mergeEntries acc p.2.entries) []

/-- Modelled from the spec: `pop(id)` removes `id` from the pot, recomputes
the effective configuration over the remaining set and reports whether it
changed; an unknown id raises `KeyError`, which `derequire_config`
(`feedline_server.py`) catches and turns into `False`. -/
def FeedlineConfigManager.derequire (m : FeedlineConfigManager) (id : Nat) :
    FeedlineConfigManager × Bool :=
  if m.required.any (fun p => p.1 == id) then
    let m' := { m with required := m.required.filter (fun p => ¬ p.1 == id) }
    (m', !(m.requiredCfg == m'.requiredCfg))
  else
    (m, false)

/-- Wildcard compatibility between the effective configuration and a
request's configuration (spec section 3: compatible iff every slot where both
hold a concrete value holds equal values; unset always matches).  Fields past
the end of the shorter list are unset. -/
def compatEntries : List (Option Nat) → List (Option Nat) → Bool
  | [], _ => true
  | _, [] => true
  | v :: vs, w :: ws =>
    (match v, w with
     | some x, some y => x == y
     | _, _ => true) && compatEntries vs ws

/-- Modelled from the spec: `FeedlineHardware.config_compatible_with`
(`feedline_server.py` line 100) evaluates `config_manager.required() <
config`, the wildcard compatibility of the effective configuration with the
request's configuration. -/
def FeedlineConfigManager.configCompatibleWith (m : FeedlineConfigManager)
    (c : FeedlineConfig) : Bool :=
  compatEntries (m.requiredCfg.map (Option.map ConfigEntry.entryHash))
    c.toHashes

/-! ## CaptureRequest (`objects.py` lines 557-637)

Sockets are modelled as numeric generations drawn from `sockCtr`; a closed or
absent socket is `none`.  `established` is `Option Bool`: `none` models the
attribute never having been set (as after `__init__`, which does not
initialize `_established`), `some b` models `_established = b`. -/

structure CaptureRequest where
  points : Nat
  tap : String
  feedline_config : FeedlineConfig
  /-- `id` in `objects.py` is `str(hash((config hash, tap, points, server)))`;
  Python's `hash` is implementation defined, so the identity is modelled as
  an opaque numeric id fixed at construction. -/
  crId : Nat
  lastStatus : Option String
  statusSocket : Option Nat
  dataSocket : Option Nat
  established : Option Bool
  statusEvents : List (String × String)
  dataEvents : List Nat
  sockCtr : Nat
deriving Repr, DecidableEq

/-- `CaptureRequest.__init__`: records parameters; `_last_status`,
`_status_socket` and `_data_socket` start as `None`; `_established` is never
assigned. -/
def CaptureRequest.mk0 (n : Nat) (tap : String) (config : FeedlineConfig)
    (id : Nat) : CaptureRequest :=
  { points := n, tap := tap, feedline_config := config, crId := id,
    lastStatus := none, statusSocket := none, dataSocket := none,
    established := none, statusEvents := [], dataEvents := [], sockCtr := 0 }

/-- `CaptureRequest.type`: `'engineering' if self.tap in ('adc', 'iq',
'phase') else self.tap`. -/
def CaptureRequest.type (cr : CaptureRequest) : String :=
  if ["adc", "iq", "phase"].contains cr.tap then "engineering" else cr.tap

/-- `CaptureRequest.size`: `self.points * 2048` (the requested data volume in
bytes; `plram_cap` reads it as `cr.size_bytes`). -/
def CaptureRequest.size (cr : CaptureRequest) : Nat := cr.points * 2048

/-- `CaptureRequest.set_status`: records `_last_status`, lazily connects a
status socket if none is present, and publishes `status:message` on the
request's id. -/
def CaptureRequest.set_status (cr : CaptureRequest) (status message : String) :
    CaptureRequest :=
  let cr := { cr with lastStatus := some status }
  let cr :=
    match cr.statusSocket with
    | none => { cr with statusSocket := some cr.sockCtr,
                        sockCtr := cr.sockCtr + 1 }
    | some _ => cr
  { cr with statusEvents := cr.statusEvents ++ [(status, message)] }

/-- `CaptureRequest.establish`: unconditionally connects a fresh status
socket and a fresh data socket, sets `_established = True` and publishes an
`established` status.  There is no already-established guard. -/
def CaptureRequest.establish (cr : CaptureRequest) : CaptureRequest :=
  let cr := { cr with statusSocket := some cr.sockCtr,
                      sockCtr := cr.sockCtr + 1 }
  let cr := { cr with dataSocket := some cr.sockCtr,
                      sockCtr := cr.sockCtr + 1 }
  let cr := { cr with established := some true }
  cr.set_status "established" ""

/-- `CaptureRequest.destablish`: closes both sockets (closed sockets are
modelled as `none`) and sets `_established = False`. -/
def CaptureRequest.destablish (cr : CaptureRequest) : CaptureRequest :=
  { cr with statusSocket := none, dataSocket := none,
            established := some false }

/-- `CaptureRequest.fail`: publishes `failed:message`, then destablishes. -/
def CaptureRequest.fail (cr : CaptureRequest) (message : String) :
    CaptureRequest :=
  (cr.set_status "failed" message).destablish

/-- `CaptureRequest.finish`: publishes `finished:`, then destablishes. -/
def CaptureRequest.finish (cr : CaptureRequest) : CaptureRequest :=
  (cr.set_status "finished" "").destablish

/-- `CaptureRequest.abort`: publishes `aborted:message`, then destablishes. -/
def CaptureRequest.abort (cr : CaptureRequest) (message : String) :
    CaptureRequest :=
  (cr.set_status "aborted" message).destablish

/-- `CaptureRequest.add_data`: reading `self._established` before
`establish`/`destablish` ever ran raises `AttributeError`; `_established ==
False` raises `RuntimeError('Establish must be called before add_data')`;
otherwise the chunk is published on the data socket followed by a
`capturing` status carrying the progress marker. -/
def CaptureRequest.add_data (cr : CaptureRequest) (chunkBytes : Nat)
    (status : String) : Except PyErr CaptureRequest :=
  match cr.established with
  | none => .error (.attributeError
      "CaptureRequest object has no attribute _established")
  | some false => .error (.runtimeError
      "Establish must be called before add_data")
  | some true =>
    let cr := { cr with dataEvents := cr.dataEvents ++ [chunkBytes] }
    .ok (cr.set_status "capturing" status)

/-- The terminal status kinds (spec section 3). -/
def terminalStatuses : List String := ["finished", "failed", "aborted"]

/-- Whether a request's last status is terminal. -/
def CaptureRequest.isTerminal (cr : CaptureRequest) : Bool :=
  match cr.lastStatus with
  | some s => terminalStatuses.contains s
  | none => false

/-! ## The plram (engineering tap) worker
(`FeedlineReadout.plram_cap`, `feedline_server.py` lines 195-255) -/

/-- `CHUNKING_THRESHOLD = 1024 ** 2` (`feedline_server.py` line 27). -/
def CHUNKING_THRESHOLD : Nat := 1024 ^ 2

/-- The chunk plan of `plram_cap` (lines 229-233): `nchunks` whole chunks of
`CHUNKING_THRESHOLD` bytes and, if nonzero, the leftover
`size_bytes - CHUNKING_THRESHOLD * nchunks`. -/
def plramChunkSizes (sizeBytes : Nat) : List Nat :=
  let nchunks := sizeBytes / CHUNKING_THRESHOLD
  let leftover := sizeBytes - CHUNKING_THRESHOLD * nchunks
  let chunks := List.replicate nchunks CHUNKING_THRESHOLD
  if leftover ≠ 0 then chunks ++ [leftover] else chunks

/-- The worker's environment: whether `ol.capture.ready()` holds, whether
`cr.establish` connects without a `ZMQError`, whether an abort message is
waiting on the worker's pipe before pulling chunk `i`, and whether the
hardware pull of chunk `i` raises (the exception's `str`). -/
structure PlramEnv where
  ready : Bool
  establishOk : Bool
  pipeAbort : Nat → Option String
  hwError : Nat → Option String

/-- `str(e)` of a modelled Python exception: its message. -/
def PyErr.errStr : PyErr → String
  | .attributeError m => m
  | .runtimeError m => m
  | .keyError k => k
  | .typeError m => m

/-- The capture loop of `plram_cap` (lines 235-251): before each pull the
pipe is polled without blocking (an abort message raises
`CaptureAbortedException`, handled by `cr.abort`); the pull itself may raise
(handled by `cr.fail('Aborted due to {e}')`, as is any exception from
`add_data`); a successful pull is delivered with progress marker
`'{i+1}/{n}'`.  After the last chunk `cr.finish()` runs. -/
def plramLoop (env : PlramEnv) : CaptureRequest → List Nat → Nat → Nat →
    CaptureRequest
  | cr, [], _, _ => cr.finish
  | cr, csize :: rest, i, n =>
    match env.pipeAbort i with
    | some msg => cr.abort msg
    | none =>
      match env.hwError i with
      | some e => cr.fail ("Aborted due to " ++ e)
      | none =>
        match cr.add_data csize (toString (i + 1) ++ "/" ++ toString n) with
        | .error e => cr.fail ("Aborted due to " ++ e.errStr)
        | .ok cr' => plramLoop env cr' rest (i + 1) n

/-- `plram_cap` (lines 208-255): the validation asserts (`cr.type ==
'engineering'`, `ol.capture.ready()`) record a failure message; `establish`
is then attempted regardless, a `ZMQError` there overwriting the message; a
recorded failure message makes the worker `fail` and return before touching
hardware; otherwise the chunked capture loop runs. -/
def plramCap (env : PlramEnv) (cr : CaptureRequest) : CaptureRequest :=
  let assertMsg : Option String :=
    if cr.type ≠ "engineering" then some "Incorrect capture request type"
    else if env.ready = false then some "Capture Subsystem is busy"
    else none
  let st :=
    if env.establishOk then (cr.establish, assertMsg)
    else (cr, some "Unable to establish capture, dropping request.")
  match st.2 with
  | some m => (st.1.fail m).destablish
  | none =>
    let chunks := plramChunkSizes st.1.size
    plramLoop env st.1 chunks 0 chunks.length

/-! ## Scheduler (`FeedlineReadout`, `feedline_server.py`) -/

/-- The scheduler's record of a running worker (`TapThread`): the id of the
request it services and whether the thread is still alive.  The
hardware-failure handler of the admission loop never manages to signal a
running worker: its `v.pipe[0].send('abort')` subscripts a `zmq.Socket`,
which is not subscriptable, so the expression raises `TypeError` before any
send — the record therefore carries no signalled flag. -/
structure TapThread where
  requestId : Nat
  alive : Bool
deriving Repr, DecidableEq

/-- The scheduler state owned by the control loop: the per-tap worker slots
(`self._tap_threads`), the fresh queue (`self._to_check`), the stale queue
(`self._checked`) and the configuration manager. -/
structure SchedState where
  tapThreads : List (String × Option TapThread)
  toCheck : List CaptureRequest
  checked : List CaptureRequest
  manager : FeedlineConfigManager
deriving Repr, DecidableEq

/-- `FeedlineReadout.__init__` line 173: the worker-slot dictionary is keyed
`'photon'`, `'stamp'`, `'engineering'`, every slot empty. -/
def initTapThreads : List (String × Option TapThread) :=
  [("photon", none), ("stamp", none), ("engineering", none)]

/-- Python dict read `d[k]`: `none` models a `KeyError`. -/
def lookupTap (ts : List (String × Option TapThread)) (k : String) :
    Option (Option TapThread) :=
  match ts.find? (fun p => p.1 == k) with
  | some p => some p.2
  | none => none

/-- Python dict write `d[k] = v` on an existing key. -/
def setTap (ts : List (String × Option TapThread)) (k : String)
    (v : Option TapThread) : List (String × Option TapThread) :=
  ts.map fun p => if p.1 == k then (p.1, v) else p

/-- `cap_runners` (line 544): the worker dictionary is keyed
`'engineering'`, `'photon'`, `'stamp'`; `none` models a `KeyError`. -/
inductive CapRunner where
  | plram
  | photon
  | stamp
deriving Repr, DecidableEq

def capRunners (t : String) : Option CapRunner :=
  if t == "engineering" then some .plram
  else if t == "photon" then some .photon
  else if t == "stamp" then some .stamp
  else none

/-- The ids of currently running requests (`running_by_id`, line 461). -/
def SchedState.runningIds (s : SchedState) : List Nat :=
  s.tapThreads.filterMap fun p => p.2.map (fun t => t.requestId)

/-- The taps whose worker thread has terminated
(`complete`, `_cleanup_completed` line 425). -/
def SchedState.completedTaps (s : SchedState) : List (String × TapThread) :=
  s.tapThreads.filterMap fun p =>
    match p.2 with
    | some t => if t.alive then none else some (p.1, t)
    | none => none

/-- One pass of the release loop of `_cleanup_completed` (lines 435-438):
release the finished request's configuration from the manager and clear the
tap's worker slot, or-ing in whether the effective requirements changed. -/
def cleanupStep (acc : SchedState × Bool) (kt : String × TapThread) :
    SchedState × Bool :=
  let dr := acc.1.manager.derequire kt.2.requestId
  ({ acc.1 with manager := dr.1,
                tapThreads := setTap acc.1.tapThreads kt.1 none },
   acc.2 || dr.2)

/-- `FeedlineReadout._cleanup_completed` (lines 422-440): if any worker
terminated, first move the whole stale queue back onto the fresh queue, then
for each completed tap release its configuration (accumulating whether the
effective requirements changed) and clear the slot.  Returns the updated
state and the accumulated flag. -/
def cleanupCompleted (s : SchedState) : SchedState × Bool :=
  let complete := s.completedTaps
  let s1 :=
    if complete.isEmpty then s
    else { s with toCheck := s.toCheck ++ s.checked, checked := [] }
  complete.foldl cleanupStep (s1, false)

/-- The outcome of the `capture` command intake (lines 488-503): `ok` carries
the updated state, the request selected to run this iteration (if the fast
path applied) and the request object after its intake-side status mutations;
`crash` models an uncaught `KeyError` escaping the loop. -/
inductive IntakeResult where
  | ok (state : SchedState) (toRun : Option CaptureRequest)
      (request : CaptureRequest)
  | crash (state : SchedState) (e : PyErr)
deriving Repr, DecidableEq

/-- The status message of the configuration-unknown rejection: Python sends
the dict `{'resp': 'ERROR', 'data': unknown}` as the abort message. -/
def configUnknownMsg (unknown : List Nat) : String :=
  "resp: ERROR, data: " ++ toString unknown

/-- The `capture` command handler (lines 488-503): `learn` the submitted
configuration; if hash-only references remain unresolved, `abort` the
request with the error payload (it is never enqueued); else if the fresh
queue is empty, the tap slot is free and the configuration is compatible,
select the request to run now; otherwise set status `queued` and append it
to the fresh queue if that is nonempty, else to the stale queue. -/
def captureIntake (s : SchedState) (data : CaptureRequest) : IntakeResult :=
  let mgr := s.manager.learn data.feedline_config
  let unknown := mgr.unlearned_hashes data.feedline_config
  let s := { s with manager := mgr }
  if unknown ≠ [] then
    .ok s none (data.abort (configUnknownMsg unknown))
  else if s.toCheck = [] then
    match lookupTap s.tapThreads data.type with
    | none => .crash s (.keyError data.type)
    | some none =>
      if s.manager.configCompatibleWith data.feedline_config then
        .ok s (some data) data
      else
        let data := data.set_status "queued" "Queued"
        .ok { s with checked := s.checked ++ [data] } none data
    | some (some _) =>
      let data := data.set_status "queued" "Queued"
      .ok { s with checked := s.checked ++ [data] } none data
  else
    let data := data.set_status "queued" "Queued"
    .ok { s with toCheck := s.toCheck ++ [data] } none data

/-- The outcome of one admission attempt (lines 515-552): `requeued` — the
request failed an admission check and was moved to the stale queue, the loop
continues; `spawned` — a worker was launched for it; `fatal` — applying the
configuration to the hardware raised, the handler ran to completion and the
loop breaks (possible only when no worker is running); `fatalCrash` — the
handler aborted the queues but then its first `v.pipe[0].send('abort')`
raised `TypeError` (a `zmq.Socket` is not subscriptable), which the
`except zmq.ZMQError` clause does not catch, so the loop thread dies by
exception without signalling any worker; `crash` — an uncaught `KeyError`
escapes the loop. -/
inductive AdmitResult where
  | requeued (state : SchedState) (request : CaptureRequest)
  | spawned (state : SchedState) (request : CaptureRequest)
  | fatal (state : SchedState) (request : CaptureRequest)
  | fatalCrash (state : SchedState) (request : CaptureRequest) (e : PyErr)
  | crash (e : PyErr)
deriving Repr, DecidableEq

/-- The scheduler state after the first loop of the hardware-failure handler
(lines 535-536): every request in the stale and fresh queues aborted with
reason `Hardware settings failure`; worker slots and manager untouched. -/
def hwFailureState (s : SchedState) : SchedState :=
  { s with
    checked := s.checked.map (fun r => r.abort "Hardware settings failure"),
    toCheck := s.toCheck.map (fun r => r.abort "Hardware settings failure") }

/-- Admission of the picked request `cr` (lines 515-552).  `applyFails`
tells whether `hardware.apply_config` raises after the manager recorded the
configuration.  On the fatal path (lines 533-542) the handler first aborts
every request in the stale and fresh queues with reason
`'Hardware settings failure'`; it then iterates the running workers doing
`v.pipe[0].send('abort')` — subscripting the `zmq.Socket`, which raises
`TypeError`, uncaught by `except zmq.ZMQError` — so with at least one
running worker the loop thread dies by exception on the first iteration
(no worker ever signalled), and only with none does it reach `break`; the
picked request itself is returned unchanged in either case.  On success the
request's status becomes `running`, the main thread's channel copies are
destablished and the worker slot is filled. -/
def admitStep (s : SchedState) (cr : CaptureRequest) (applyFails : Bool)
    (utcNow : String) : AdmitResult :=
  match lookupTap s.tapThreads cr.type with
  | none => .crash (.keyError cr.type)
  | some (some tt) =>
    let cr := cr.set_status "queued"
      ("tap location in use by: " ++ toString tt.requestId)
    .requeued { s with checked := s.checked ++ [cr] } cr
  | some none =>
    if ¬ s.manager.configCompatibleWith cr.feedline_config then
      let cr := cr.set_status "queued"
        ("incompatible with one or more of: " ++ toString s.runningIds)
      .requeued { s with checked := s.checked ++ [cr] } cr
    else
      let s := { s with manager := s.manager.add cr.crId cr.feedline_config }
      if applyFails then
        if s.runningIds.isEmpty then
          .fatal (hwFailureState s) cr
        else
          .fatalCrash (hwFailureState s) cr
            (.typeError "zmq.Socket object is not subscriptable")
      else
        match capRunners cr.type with
        | none => .crash (.keyError cr.type)
        | some _ =>
          let cr := cr.set_status "running" ("Started at UTC " ++ utcNow)
          let cr := cr.destablish
          let tt : TapThread := { requestId := cr.crId, alive := true }
          .spawned { s with tapThreads := setTap s.tapThreads cr.type (some tt) } cr

/-- Whether an admission outcome ends the control loop: the clean `break`
of the fatal path, the handler dying by an uncaught `TypeError`, or an
uncaught `KeyError`. -/
def AdmitResult.loopStops : AdmitResult → Bool
  | .requeued _ _ => false
  | .spawned _ _ => false
  | .fatal _ _ => true
  | .fatalCrash _ _ _ => true
  | .crash _ => true

/-- Whether an admission outcome spawned a worker. -/
def AdmitResult.isSpawned : AdmitResult → Bool
  | .spawned _ _ => true
  | _ => false

/-- The last status of the picked request after admission. -/
def AdmitResult.reqStatus : AdmitResult → Option String
  | .requeued _ r => r.lastStatus
  | .spawned _ r => r.lastStatus
  | .fatal _ r => r.lastStatus
  | .fatalCrash _ r _ => r.lastStatus
  | .crash _ => none

/-- The queued requests (stale then fresh, the order the fatal handler walks
them) in the state an admission outcome carries. -/
def AdmitResult.stateQueues : AdmitResult → List CaptureRequest
  | .requeued s _ => s.checked ++ s.toCheck
  | .spawned s _ => s.checked ++ s.toCheck
  | .fatal s _ => s.checked ++ s.toCheck
  | .fatalCrash s _ _ => s.checked ++ s.toCheck
  | .crash _ => []

/-- The per-tap worker slots in the state an admission outcome carries. -/
def AdmitResult.stateTaps : AdmitResult → List (String × Option TapThread)
  | .requeued s _ => s.tapThreads
  | .spawned s _ => s.tapThreads
  | .fatal s _ => s.tapThreads
  | .fatalCrash s _ _ => s.tapThreads
  | .crash _ => []

/-- The last status of the intaken request after the `capture` handler. -/
def IntakeResult.requestStatus : IntakeResult → Option String
  | .ok _ _ r => r.lastStatus
  | .crash _ _ => none

/-- The queues (fresh then stale) in the state an intake outcome carries. -/
def IntakeResult.queues : IntakeResult → List CaptureRequest
  | .ok s _ _ => s.toCheck ++ s.checked
  | .crash s _ => s.toCheck ++ s.checked

/-! ## Concrete fixtures used by witnesses and counterexamples -/

def cfg0 : FeedlineConfig := ⟨[]⟩

def mgr0 : FeedlineConfigManager := ⟨[], []⟩

/-- A fresh scheduler state as built by `FeedlineReadout.__init__`. -/
def s0 : SchedState :=
  { tapThreads := initTapThreads, toCheck := [], checked := [],
    manager := mgr0 }

/-- An environment in which validation and establish succeed and neither an
abort signal nor a hardware error ever occurs. -/
def envClean : PlramEnv :=
  { ready := true, establishOk := true, pipeAbort := fun _ => none,
    hwError := fun _ => none }

/-- An environment in which the hardware pull of the first chunk raises an
exception whose message is `boom`. -/
def envBoom : PlramEnv :=
  { ready := true, establishOk := true, pipeAbort := fun _ => none,
    hwError := fun i => if i = 0 then some "boom" else none }

def crW1 : CaptureRequest := CaptureRequest.mk0 1 "adc" cfg0 11

def crW7 : CaptureRequest := CaptureRequest.mk0 1 "adc" cfg0 12

def cr9 : CaptureRequest := CaptureRequest.mk0 5 "adc" cfg0 13

/-- A request already waiting in a queue (its status was set to `queued` when
it was enqueued). -/
def crQ1 : CaptureRequest :=
  (CaptureRequest.mk0 4 "photon" cfg0 101).set_status "queued" "Queued"

def crQ2 : CaptureRequest :=
  (CaptureRequest.mk0 6 "iq" cfg0 102).set_status "queued" "Queued"

def ttRun : TapThread := { requestId := 100, alive := true }

def ttDead : TapThread := { requestId := 9, alive := false }

/-- A scheduler state with a worker running on the photon tap and one
request waiting in each queue. -/
def sBusy : SchedState :=
  { tapThreads :=
      [("photon", some ttRun), ("stamp", none), ("engineering", none)],
    toCheck := [crQ2], checked := [crQ1], manager := mgr0 }

/-- A scheduler state with no running worker and one request waiting in
each queue. -/
def sQuiet : SchedState :=
  { tapThreads := initTapThreads, toCheck := [crQ2], checked := [crQ1],
    manager := mgr0 }

/-- A scheduler state whose photon worker thread has terminated. -/
def sDead : SchedState :=
  { tapThreads :=
      [("photon", some ttDead), ("stamp", none), ("engineering", none)],
    toCheck := [crQ2], checked := [crQ1], manager := mgr0 }

/-- The engineering-variant request picked for admission in the
hardware-failure scenario (it carries the `queued` status it received when
it was first enqueued). -/
def crAdm : CaptureRequest :=
  (CaptureRequest.mk0 2 "adc" cfg0 103).set_status "queued" "Queued"

def crPhotonQ : CaptureRequest := CaptureRequest.mk0 3 "photon" cfg0 77

def crPostage : CaptureRequest := CaptureRequest.mk0 8 "postage" cfg0 61

def crAdc : CaptureRequest := CaptureRequest.mk0 8 "adc" cfg0 62

def crPhoton : CaptureRequest := CaptureRequest.mk0 8 "photon" cfg0 63

/-- A configuration carrying a hash-only reference (hash 7) that was never
taught in full. -/
def cfgHashOnly : FeedlineConfig := ⟨[some (.hashOnly 7)]⟩

def crU : CaptureRequest := CaptureRequest.mk0 3 "adc" cfgHashOnly 55

/-! ## Projection lemmas for `CaptureRequest` operations -/

@[simp]
theorem CaptureRequest.set_status_statusEvents (cr : CaptureRequest)
    (st m : String) :
    (cr.set_status st m).statusEvents = cr.statusEvents ++ [(st, m)] := by
  unfold CaptureRequest.set_status
  cases cr.statusSocket <;> simp

@[simp]
theorem CaptureRequest.set_status_lastStatus (cr : CaptureRequest)
    (st m : String) : (cr.set_status st m).lastStatus = some st := by
  unfold CaptureRequest.set_status
  cases cr.statusSocket <;> simp

@[simp]
theorem CaptureRequest.set_status_dataEvents (cr : CaptureRequest)
    (st m : String) : (cr.set_status st m).dataEvents = cr.dataEvents := by
  unfold CaptureRequest.set_status
  cases cr.statusSocket <;> simp

@[simp]
theorem CaptureRequest.set_status_established (cr : CaptureRequest)
    (st m : String) : (cr.set_status st m).established = cr.established := by
  unfold CaptureRequest.set_status
  cases cr.statusSocket <;> simp

@[simp]
theorem CaptureRequest.set_status_points (cr : CaptureRequest)
    (st m : String) : (cr.set_status st m).points = cr.points := by
  unfold CaptureRequest.set_status
  cases cr.statusSocket <;> simp

@[simp]
theorem CaptureRequest.establish_statusEvents (cr : CaptureRequest) :
    cr.establish.statusEvents = cr.statusEvents ++ [("established", "")] := by
  unfold CaptureRequest.establish
  simp

@[simp]
theorem CaptureRequest.establish_dataEvents (cr : CaptureRequest) :
    cr.establish.dataEvents = cr.dataEvents := by
  unfold CaptureRequest.establish
  simp

@[simp]
theorem CaptureRequest.establish_established (cr : CaptureRequest) :
    cr.establish.established = some true := by
  unfold CaptureRequest.establish
  simp

@[simp]
theorem CaptureRequest.establish_points (cr : CaptureRequest) :
    cr.establish.points = cr.points := by
  unfold CaptureRequest.establish
  simp

@[simp]
theorem CaptureRequest.size_establish (cr : CaptureRequest) :
    cr.establish.size = cr.size := by
  unfold CaptureRequest.size
  simp

@[simp]
theorem CaptureRequest.destablish_statusEvents (cr : CaptureRequest) :
    cr.destablish.statusEvents = cr.statusEvents := rfl

@[simp]
theorem CaptureRequest.destablish_dataEvents (cr : CaptureRequest) :
    cr.destablish.dataEvents = cr.dataEvents := rfl

@[simp]
theorem CaptureRequest.destablish_lastStatus (cr : CaptureRequest) :
    cr.destablish.lastStatus = cr.lastStatus := rfl

@[simp]
theorem CaptureRequest.fail_statusEvents (cr : CaptureRequest) (m : String) :
    (cr.fail m).statusEvents = cr.statusEvents ++ [("failed", m)] := by
  unfold CaptureRequest.fail
  simp

@[simp]
theorem CaptureRequest.fail_lastStatus (cr : CaptureRequest) (m : String) :
    (cr.fail m).lastStatus = some "failed" := by
  unfold CaptureRequest.fail
  simp

@[simp]
theorem CaptureRequest.fail_dataEvents (cr : CaptureRequest) (m : String) :
    (cr.fail m).dataEvents = cr.dataEvents := by
  unfold CaptureRequest.fail
  simp

@[simp]
theorem CaptureRequest.finish_statusEvents (cr : CaptureRequest) :
    cr.finish.statusEvents = cr.statusEvents ++ [("finished", "")] := by
  unfold CaptureRequest.finish
  simp

@[simp]
theorem CaptureRequest.finish_lastStatus (cr : CaptureRequest) :
    cr.finish.lastStatus = some "finished" := by
  unfold CaptureRequest.finish
  simp

@[simp]
theorem CaptureRequest.finish_dataEvents (cr : CaptureRequest) :
    cr.finish.dataEvents = cr.dataEvents := by
  unfold CaptureRequest.finish
  simp

@[simp]
theorem CaptureRequest.abort_statusEvents (cr : CaptureRequest) (m : String) :
    (cr.abort m).statusEvents = cr.statusEvents ++ [("aborted", m)] := by
  unfold CaptureRequest.abort
  simp

@[simp]
theorem CaptureRequest.abort_lastStatus (cr : CaptureRequest) (m : String) :
    (cr.abort m).lastStatus = some "aborted" := by
  unfold CaptureRequest.abort
  simp

theorem CaptureRequest.add_data_ok (cr : CaptureRequest) (c : Nat)
    (st : String) (h : cr.established = some true) :
    cr.add_data c st
      = .ok (CaptureRequest.set_status
          { cr with dataEvents := cr.dataEvents ++ [c] } "capturing" st) := by
  unfold CaptureRequest.add_data
  rw [h]

/-! ## Configuration compatibility (C4) -/

theorem flMetaEq_symm (a b : List (Option Nat)) (h : a.length = b.length) :
    flMetaEq a b = flMetaEq b a := by
  induction a generalizing b with
  | nil =>
    cases b with
    | nil => rfl
    | cons w ws => simp at h
  | cons v vs ih =>
    cases b with
    | nil => simp at h
    | cons w ws =>
      simp only [List.length_cons, Nat.succ.injEq] at h
      cases v with
      | none =>
        cases w with
        | none => simpa [flMetaEq] using ih ws h
        | some y => simpa [flMetaEq] using ih ws h
      | some x =>
        cases w with
        | none => simpa [flMetaEq] using ih ws h
        | some y =>
          by_cases hxy : x = y
          · subst hxy
            simpa [flMetaEq] using ih ws h
          · have h1 : (x == y) = false := beq_eq_false_iff_ne.mpr hxy
            have h2 : (y == x) = false := beq_eq_false_iff_ne.mpr (Ne.symm hxy)
            simp [flMetaEq, h1, h2]

theorem flMetaEq_refl (a : List (Option Nat)) : flMetaEq a a = true := by
  induction a with
  | nil => rfl
  | cons v vs ih =>
    cases v with
    | none => simpa [flMetaEq] using ih
    | some x => simp [flMetaEq, ih]

/-- C4: the configuration-compatibility relation (`FLMetaConfigMixin.__eq__`
over same-class configurations, and the leaf `FLConfigMixin.__eq__`) is
symmetric and reflexive, and an unset (`None`) field on either side is a
wildcard that always matches. -/
theorem config_compat_symm_refl_wildcard :
    (∀ a b : List (Option Nat), a.length = b.length →
      flMetaEq a b = flMetaEq b a)
    ∧ (∀ a : List (Option Nat), flMetaEq a a = true)
    ∧ (∀ (v : Option Nat) (vs ws : List (Option Nat)),
        flMetaEq (none :: vs) (v :: ws) = flMetaEq vs ws
        ∧ flMetaEq (v :: vs) (none :: ws) = flMetaEq vs ws)
    ∧ (∀ a b : Nat, flConfigEq a b = flConfigEq b a)
    ∧ (∀ a : Nat, flConfigEq a a = true) := by
  refine ⟨flMetaEq_symm, flMetaEq_refl, ?_, ?_, ?_⟩
  · intro v vs ws
    constructor
    · cases v <;> rfl
    · cases v <;> rfl
  · intro a b
    simp [flConfigEq, Nat.beq_eq, eq_comm]
  · intro a
    simp [flConfigEq]

/-- Witness for `config_compat_symm_refl_wildcard` at concrete
configurations. -/
theorem config_compat_symm_refl_wildcard_witness :
    flMetaEq [some 3, none] [none, some 4]
      = flMetaEq [none, some 4] [some 3, none]
    ∧ flMetaEq [some 3, none] [some 3, none] = true :=
  ⟨config_compat_symm_refl_wildcard.1 [some 3, none] [none, some 4] rfl,
   config_compat_symm_refl_wildcard.2.1 [some 3, none]⟩

/-! ## CaptureRequest channel lifecycle (C8, C9) -/

/-- C8: on a freshly constructed `CaptureRequest` (whose `__init__` never
assigns `_established`), calling `add_data` before `establish` raises
`AttributeError` when `self._established` is read — not the
`RuntimeError('Establish must be called before add_data')` that the method
itself intends for the not-established case — and no data is published.  The
intended `RuntimeError` is only reachable once `destablish` has assigned
`_established = False`. -/
theorem add_data_before_establish_attribute_error :
    (CaptureRequest.mk0 100 "adc" cfg0 1).established = none
    ∧ (CaptureRequest.mk0 100 "adc" cfg0 1).add_data 16 ""
        = .error (.attributeError
            "CaptureRequest object has no attribute _established")
    ∧ ((CaptureRequest.mk0 100 "adc" cfg0 1).destablish).add_data 16 ""
        = .error (.runtimeError "Establish must be called before add_data")
    ∧ (CaptureRequest.mk0 100 "adc" cfg0 1).dataEvents = [] :=
  ⟨rfl, rfl, rfl, rfl⟩

/-- C9 counterexample: calling `establish` twice is observably not a no-op —
the second call publishes a second `established` status event and replaces
the status socket with a freshly connected one. -/
theorem establish_twice_not_noop :
    (cr9.establish.establish).statusEvents
      = [("established", ""), ("established", "")]
    ∧ (cr9.establish).statusEvents = [("established", "")]
    ∧ (cr9.establish.establish).statusSocket ≠ (cr9.establish).statusSocket := by
  refine ⟨rfl, rfl, by decide⟩

/-- C9 amended: `establish` has no already-established guard, so a second
call re-opens both channels (connecting two fresh sockets) and emits one
additional `established` status event. -/
theorem establish_twice_reopens_channels (cr : CaptureRequest) :
    (cr.establish.establish).statusEvents
      = cr.statusEvents ++ [("established", ""), ("established", "")]
    ∧ (cr.establish.establish).statusSocket = some (cr.sockCtr + 2)
    ∧ (cr.establish.establish).dataSocket = some (cr.sockCtr + 3)
    ∧ (cr.establish.establish).sockCtr = cr.sockCtr + 4 := by
  unfold CaptureRequest.establish CaptureRequest.set_status
  simp

/-! ## The plram worker: chunked delivery (C1) and failure path (C7) -/

theorem plramChunkSizes_eq (S : Nat) :
    plramChunkSizes S
      = List.replicate (S / CHUNKING_THRESHOLD) CHUNKING_THRESHOLD
        ++ (if S % CHUNKING_THRESHOLD ≠ 0 then [S % CHUNKING_THRESHOLD]
            else []) := by
  have h := Nat.div_add_mod S CHUNKING_THRESHOLD
  have hsub : S - CHUNKING_THRESHOLD * (S / CHUNKING_THRESHOLD)
      = S % CHUNKING_THRESHOLD := by omega
  simp only [plramChunkSizes, hsub]
  split <;> simp

theorem plramChunkSizes_ne_nil (S : Nat) (h : 0 < S) :
    plramChunkSizes S ≠ [] := by
  rw [plramChunkSizes_eq]
  rcases Nat.eq_zero_or_pos (S / CHUNKING_THRESHOLD) with h0 | hp
  · have hmod : S % CHUNKING_THRESHOLD = S := by
      have h2 := Nat.div_add_mod S CHUNKING_THRESHOLD
      rw [h0] at h2
      simpa using h2
    simp [h0, hmod, Nat.pos_iff_ne_zero.mp h]
  · obtain ⟨k, hk⟩ :=
      Nat.exists_eq_succ_of_ne_zero (Nat.pos_iff_ne_zero.mp hp)
    rw [hk, List.replicate_succ]
    by_cases hl : S % CHUNKING_THRESHOLD ≠ 0 <;> simp [hl]

/-- In an environment with no pending abort and no hardware error, the
capture loop delivers exactly its chunk list, emits only `capturing` events
followed by a single `finished` event, and ends with status `finished`. -/
theorem plramLoop_clean (env : PlramEnv)
    (hA : ∀ i, env.pipeAbort i = none) (hE : ∀ i, env.hwError i = none) :
    ∀ (chunks : List Nat) (cr : CaptureRequest) (i n : Nat),
      cr.established = some true →
      (plramLoop env cr chunks i n).dataEvents = cr.dataEvents ++ chunks
      ∧ (∃ evs, (plramLoop env cr chunks i n).statusEvents
            = cr.statusEvents ++ evs ++ [("finished", "")]
          ∧ ∀ e ∈ evs, e.1 = "capturing")
      ∧ (plramLoop env cr chunks i n).lastStatus = some "finished" := by
  intro chunks
  induction chunks with
  | nil =>
    intro cr i n hest
    refine ⟨by simp [plramLoop], ⟨[], by simp [plramLoop], by simp⟩,
      by simp [plramLoop]⟩
  | cons c rest ih =>
    intro cr i n hest
    have hstep : plramLoop env cr (c :: rest) i n
        = plramLoop env
            (CaptureRequest.set_status
              { cr with dataEvents := cr.dataEvents ++ [c] } "capturing"
              (toString (i + 1) ++ "/" ++ toString n))
            rest (i + 1) n := by
      simp only [plramLoop]
      rw [hA i, hE i, CaptureRequest.add_data_ok cr c _ hest]
    set cr' : CaptureRequest :=
      CaptureRequest.set_status
        { cr with dataEvents := cr.dataEvents ++ [c] } "capturing"
        (toString (i + 1) ++ "/" ++ toString n) with hcr'
    have hest' : cr'.established = some true := by
      rw [hcr']
      simpa using hest
    obtain ⟨hd, ⟨evs, hs, hcap⟩, hl⟩ := ih cr' (i + 1) n hest'
    rw [hstep]
    refine ⟨?_, ⟨("capturing", toString (i + 1) ++ "/" ++ toString n) :: evs,
      ?_, ?_⟩, hl⟩
    · rw [hd, hcr']
      simp
    · rw [hs, hcr']
      simp
    · intro e he
      rcases List.mem_cons.mp he with h1 | h2
      · rw [h1]
      · exact hcap e h2

/-- C1: for an engineering-tap request of size `S = points * 2048` bytes
with `S > 0`, once validation and establish succeed and absent abort signals
and hardware errors, `plram_cap` delivers exactly `S / 1048576` chunks of
`1048576` bytes followed by one chunk of `S % 1048576` bytes when that
remainder is nonzero, and then emits exactly one `finished` status event. -/
theorem plram_cap_chunked_delivery (env : PlramEnv) (cr : CaptureRequest)
    (htype : cr.type = "engineering") (hready : env.ready = true)
    (hest : env.establishOk = true)
    (hA : ∀ i, env.pipeAbort i = none) (hE : ∀ i, env.hwError i = none)
    (hdata : cr.dataEvents = []) (hstat : cr.statusEvents = [])
    (hpos : 0 < cr.size) :
    (plramCap env cr).dataEvents
      = List.replicate (cr.size / 1048576) 1048576
        ++ (if cr.size % 1048576 ≠ 0 then [cr.size % 1048576] else [])
    ∧ ((plramCap env cr).statusEvents.filter
        (fun e => e.1 == "finished")).length = 1
    ∧ (plramCap env cr).lastStatus = some "finished"
    ∧ CHUNKING_THRESHOLD = 1048576 := by
  have hT : CHUNKING_THRESHOLD = 1048576 := by norm_num [CHUNKING_THRESHOLD]
  have hrun : plramCap env cr
      = plramLoop env cr.establish (plramChunkSizes cr.establish.size) 0
          (plramChunkSizes cr.establish.size).length := by
    unfold plramCap
    rw [htype, hest]
    simp [hready]
  obtain ⟨hd, ⟨evs, hs, hcap⟩, hl⟩ :=
    plramLoop_clean env hA hE (plramChunkSizes cr.establish.size)
      cr.establish 0 (plramChunkSizes cr.establish.size).length
      (cr.establish_established)
  refine ⟨?_, ?_, ?_, hT⟩
  · rw [hrun, hd]
    simp [hdata, plramChunkSizes_eq, hT]
  · rw [hrun, hs]
    simp only [CaptureRequest.establish_statusEvents, hstat, List.nil_append,
      List.filter_append]
    have h1 : List.filter (fun e => e.1 == "finished")
        [(("established" : String), ("" : String))] = [] := by decide
    have h2 : List.filter (fun e => e.1 == "finished") evs = [] := by
      rw [List.filter_eq_nil_iff]
      intro e he
      have := hcap e he
      simp [this]
    have h3 : List.filter (fun e => e.1 == "finished")
        [(("finished" : String), ("" : String))]
        = [(("finished" : String), ("" : String))] := by decide
    rw [h1, h2, h3]
    simp
  · rw [hrun]
    exact hl

/-- Witness for `plram_cap_chunked_delivery`: a one-point engineering
request (2048 bytes) in a clean environment. -/
theorem plram_cap_chunked_delivery_witness :
    (plramCap envClean crW1).dataEvents
      = List.replicate (crW1.size / 1048576) 1048576
        ++ (if crW1.size % 1048576 ≠ 0 then [crW1.size % 1048576] else [])
    ∧ ((plramCap envClean crW1).statusEvents.filter
        (fun e => e.1 == "finished")).length = 1
    ∧ (plramCap envClean crW1).lastStatus = some "finished"
    ∧ CHUNKING_THRESHOLD = 1048576 :=
  plram_cap_chunked_delivery envClean crW1 rfl rfl rfl (fun _ => rfl)
    (fun _ => rfl) rfl rfl (by decide)

/-- C7 counterexample: a hardware exception with message `boom` during the
capture phase makes the request fail with message `Aborted due to boom`
(the worker calls `cr.fail(f'Aborted due to {e}')`), not with `str(e)` =
`boom` as the claim states. -/
theorem worker_exception_message_prefixed :
    (plramCap envBoom crW7).lastStatus = some "failed"
    ∧ (plramCap envBoom crW7).statusEvents
        = [("established", ""), ("failed", "Aborted due to boom")]
    ∧ ("Aborted due to boom" : String) ≠ "boom" := by
  refine ⟨rfl, rfl, by decide⟩

/-- C7 amended: any exception during the capture phase other than
cooperative cancellation drives the owning request to the `failed` terminal
state, with message `'Aborted due to ' ++ str(exception)`; the worker
touches no other request. -/
theorem worker_exception_fails_request (env : PlramEnv)
    (cr : CaptureRequest) (e : String)
    (htype : cr.type = "engineering") (hready : env.ready = true)
    (hest : env.establishOk = true) (hA : env.pipeAbort 0 = none)
    (hE : env.hwError 0 = some e) (hpos : 0 < cr.size) :
    (plramCap env cr).lastStatus = some "failed"
    ∧ (plramCap env cr).statusEvents
        = cr.statusEvents
          ++ [("established", ""), ("failed", "Aborted due to " ++ e)] := by
  have hrun : plramCap env cr
      = plramLoop env cr.establish (plramChunkSizes cr.establish.size) 0
          (plramChunkSizes cr.establish.size).length := by
    unfold plramCap
    rw [htype, hest]
    simp [hready]
  have hne : plramChunkSizes cr.establish.size ≠ [] := by
    rw [CaptureRequest.size_establish]
    exact plramChunkSizes_ne_nil cr.size hpos
  obtain ⟨c, rest, hchunks⟩ := List.exists_cons_of_ne_nil hne
  have hloop : plramLoop env cr.establish (c :: rest) 0 (c :: rest).length
      = cr.establish.fail ("Aborted due to " ++ e) := by
    simp only [plramLoop]
    rw [hA, hE]
  rw [hrun, hchunks, hloop]
  constructor
  · simp
  · simp

/-- Witness for `worker_exception_fails_request` in the `boom`
environment. -/
theorem worker_exception_fails_request_witness :
    (plramCap envBoom crW7).lastStatus = some "failed"
    ∧ (plramCap envBoom crW7).statusEvents
        = crW7.statusEvents
          ++ [("established", ""), ("failed", "Aborted due to " ++ "boom")] :=
  worker_exception_fails_request envBoom crW7 "boom" rfl rfl rfl rfl rfl
    (by decide)

/-! ## Scheduler admission (C2, C3, C5, C6) and reap (C10) -/

/-- C3: when the picked request's tap already has a running worker, the
scheduler sets its status to `queued` with the tap-busy reason, appends it
to the stale queue, spawns no worker, and leaves the worker slots and fresh
queue untouched — so two requests on the same tap are strictly serialized. -/
theorem tap_busy_requeues (s : SchedState) (cr : CaptureRequest)
    (tt : TapThread) (af : Bool) (now : String)
    (hBusy : lookupTap s.tapThreads cr.type = some (some tt)) :
    admitStep s cr af now = .requeued
      { s with checked := s.checked ++
          [cr.set_status "queued"
            ("tap location in use by: " ++ toString tt.requestId)] }
      (cr.set_status "queued"
        ("tap location in use by: " ++ toString tt.requestId))
    ∧ (cr.set_status "queued"
        ("tap location in use by: " ++ toString tt.requestId)).lastStatus
        = some "queued"
    ∧ (admitStep s cr af now).isSpawned = false
    ∧ (admitStep s cr af now).stateTaps = s.tapThreads := by
  have hstep : admitStep s cr af now = .requeued
      { s with checked := s.checked ++
          [cr.set_status "queued"
            ("tap location in use by: " ++ toString tt.requestId)] }
      (cr.set_status "queued"
        ("tap location in use by: " ++ toString tt.requestId)) := by
    unfold admitStep
    rw [hBusy]
  refine ⟨hstep, by simp, ?_, ?_⟩
  · rw [hstep]
    rfl
  · rw [hstep]
    rfl

/-- Witness for `tap_busy_requeues`: a photon request admitted while the
photon tap is serviced by a worker. -/
theorem tap_busy_requeues_witness :
    admitStep sBusy crPhotonQ false "t0" = .requeued
      { sBusy with checked := sBusy.checked ++
          [crPhotonQ.set_status "queued"
            ("tap location in use by: " ++ toString ttRun.requestId)] }
      (crPhotonQ.set_status "queued"
        ("tap location in use by: " ++ toString ttRun.requestId))
    ∧ (crPhotonQ.set_status "queued"
        ("tap location in use by: " ++ toString ttRun.requestId)).lastStatus
        = some "queued"
    ∧ (admitStep sBusy crPhotonQ false "t0").isSpawned = false
    ∧ (admitStep sBusy crPhotonQ false "t0").stateTaps = sBusy.tapThreads :=
  tap_busy_requeues sBusy crPhotonQ ttRun false "t0" rfl

theorem SchedState.runningIds_manager (s : SchedState)
    (m : FeedlineConfigManager) :
    ({ s with manager := m } : SchedState).runningIds = s.runningIds := rfl

/-- C2 counterexample: a hardware-apply failure during admission (state
`sBusy`: one running photon worker, one request in each queue) aborts the
queued requests and ends the loop (the handler dies on the uncaught
`TypeError` of `v.pipe[0]`), but the request being admitted keeps its
previous non-terminal `queued` status and the running worker's slot is
untouched — so not every outstanding request reaches a terminal state. -/
theorem hw_failure_admitted_left_nonterminal :
    (admitStep sBusy crAdm true "t0").loopStops = true
    ∧ ((admitStep sBusy crAdm true "t0").stateQueues.all
        (fun q => q.isTerminal)) = true
    ∧ (admitStep sBusy crAdm true "t0").reqStatus = some "queued"
    ∧ terminalStatuses.contains "queued" = false
    ∧ (admitStep sBusy crAdm true "t0").stateTaps = sBusy.tapThreads := by
  refine ⟨rfl, by decide, rfl, by decide, rfl⟩

/-- C2 amended: when applying the merged configuration to the hardware
raises during admission, the scheduler aborts every request in both queues
with reason `Hardware settings failure` and the control loop stops — by the
`break` when no worker is running, and by the uncaught `TypeError` raised
by the `v.pipe[0]` subscript (a `zmq.Socket` is not subscriptable, and the
handler only catches `zmq.ZMQError`) when at least one worker is running —
so no running worker is ever signalled (the worker slots are untouched) and
the request being admitted is itself left with its previous non-terminal
status. -/
theorem hw_failure_aborts_queued_and_stops (s : SchedState)
    (cr : CaptureRequest) (now : String)
    (hTap : lookupTap s.tapThreads cr.type = some none)
    (hCompat : s.manager.configCompatibleWith cr.feedline_config = true) :
    (admitStep s cr true now).loopStops = true
    ∧ (admitStep s cr true now).reqStatus = cr.lastStatus
    ∧ (admitStep s cr true now).stateQueues
        = (s.checked.map fun r => r.abort "Hardware settings failure")
          ++ (s.toCheck.map fun r => r.abort "Hardware settings failure")
    ∧ (∀ q ∈ (admitStep s cr true now).stateQueues,
        q.lastStatus = some "aborted")
    ∧ (admitStep s cr true now).stateTaps = s.tapThreads
    ∧ (s.runningIds = [] →
        admitStep s cr true now
          = .fatal (hwFailureState
              { s with manager := s.manager.add cr.crId cr.feedline_config })
              cr)
    ∧ (s.runningIds ≠ [] →
        admitStep s cr true now
          = .fatalCrash (hwFailureState
              { s with manager := s.manager.add cr.crId cr.feedline_config })
              cr (.typeError "zmq.Socket object is not subscriptable")) := by
  have hkey : admitStep s cr true now
      = if s.runningIds.isEmpty then
          .fatal (hwFailureState
            { s with manager := s.manager.add cr.crId cr.feedline_config })
            cr
        else
          .fatalCrash (hwFailureState
            { s with manager := s.manager.add cr.crId cr.feedline_config })
            cr (.typeError "zmq.Socket object is not subscriptable") := by
    unfold admitStep
    rw [hTap]
    simp [hCompat, SchedState.runningIds_manager]
  have h3 : (admitStep s cr true now).stateQueues
      = (s.checked.map fun r => r.abort "Hardware settings failure")
        ++ (s.toCheck.map fun r => r.abort "Hardware settings failure") := by
    rw [hkey]
    split <;> rfl
  refine ⟨?_, ?_, h3, ?_, ?_, ?_, ?_⟩
  · rw [hkey]
    split <;> rfl
  · rw [hkey]
    split <;> rfl
  · intro q hq
    rw [h3] at hq
    simp only [List.mem_append, List.mem_map] at hq
    rcases hq with ⟨r, _, rfl⟩ | ⟨r, _, rfl⟩ <;> simp
  · rw [hkey]
    split <;> rfl
  · intro h
    have hie : s.runningIds.isEmpty = true := by
      rw [h]
      rfl
    rw [hkey]
    simp [hie]
  · intro h
    have hie : s.runningIds.isEmpty = false := by
      cases hc : s.runningIds with
      | nil => exact absurd hc h
      | cons a l => rfl
    rw [hkey]
    simp [hie]

/-- Witness for `hw_failure_aborts_queued_and_stops`: at `sBusy` (a photon
worker running) the outcome is the uncaught-`TypeError` crash, and at
`sQuiet` (no worker running) it is the clean fatal break. -/
theorem hw_failure_aborts_queued_and_stops_witness :
    (admitStep sBusy crAdm true "t0").loopStops = true
    ∧ (admitStep sBusy crAdm true "t0").stateQueues
        = (sBusy.checked.map fun r => r.abort "Hardware settings failure")
          ++ (sBusy.toCheck.map fun r => r.abort "Hardware settings failure")
    ∧ admitStep sBusy crAdm true "t0"
        = .fatalCrash (hwFailureState
            { sBusy with
              manager := sBusy.manager.add crAdm.crId crAdm.feedline_config })
            crAdm (.typeError "zmq.Socket object is not subscriptable")
    ∧ admitStep sQuiet crAdm true "t0"
        = .fatal (hwFailureState
            { sQuiet with
              manager := sQuiet.manager.add crAdm.crId crAdm.feedline_config })
            crAdm :=
  ⟨(hw_failure_aborts_queued_and_stops sBusy crAdm "t0" rfl rfl).1,
   (hw_failure_aborts_queued_and_stops sBusy crAdm "t0" rfl rfl).2.2.1,
   (hw_failure_aborts_queued_and_stops sBusy crAdm "t0" rfl rfl).2.2.2.2.2.2
     (by decide),
   (hw_failure_aborts_queued_and_stops sQuiet crAdm "t0" rfl rfl).2.2.2.2.2.1
     rfl⟩

/-- C5 counterexample: a capture command whose configuration carries the
never-taught hash-only reference `7` is rejected with terminal status
`aborted` — not `failed` as the claim states — and is enqueued nowhere. -/
theorem config_unknown_aborts_not_fails :
    (captureIntake s0 crU).requestStatus = some "aborted"
    ∧ (captureIntake s0 crU).requestStatus ≠ some "failed"
    ∧ (captureIntake s0 crU).queues = [] := by
  refine ⟨rfl, by decide, rfl⟩

/-- C5 amended: a capture command whose configuration contains hash-only
references never taught in full is immediately rejected — `abort`ed with
the configuration-unknown error payload, reaching the terminal status
`aborted` — and is placed in neither the fresh nor the stale queue. -/
theorem config_unknown_rejected (s : SchedState) (data : CaptureRequest)
    (h : (s.manager.learn data.feedline_config).unlearned_hashes
        data.feedline_config ≠ []) :
    captureIntake s data
      = .ok { s with manager := s.manager.learn data.feedline_config } none
          (data.abort (configUnknownMsg
            ((s.manager.learn data.feedline_config).unlearned_hashes
              data.feedline_config)))
    ∧ (captureIntake s data).requestStatus = some "aborted"
    ∧ (captureIntake s data).queues = s.toCheck ++ s.checked := by
  have hstep : captureIntake s data
      = .ok { s with manager := s.manager.learn data.feedline_config } none
          (data.abort (configUnknownMsg
            ((s.manager.learn data.feedline_config).unlearned_hashes
              data.feedline_config))) := by
    unfold captureIntake
    simp [h]
  refine ⟨hstep, ?_, by rw [hstep]; rfl⟩
  rw [hstep]
  simp [IntakeResult.requestStatus]

/-- Witness for `config_unknown_rejected`: the fresh scheduler state and the
request carrying the untaught hash-only reference `7`. -/
theorem config_unknown_rejected_witness :
    captureIntake s0 crU
      = .ok { s0 with manager := mgr0.learn crU.feedline_config } none
          (crU.abort (configUnknownMsg
            ((mgr0.learn crU.feedline_config).unlearned_hashes
              crU.feedline_config)))
    ∧ (captureIntake s0 crU).requestStatus = some "aborted"
    ∧ (captureIntake s0 crU).queues = s0.toCheck ++ s0.checked :=
  config_unknown_rejected s0 crU (by decide)

/-- C6: engineering-variant and photon requests with a free tap slot and
compatible configuration are admitted straight to `running`, but a postage
request is not — `CaptureRequest.type` yields `'postage'` while both
`_tap_threads` and `cap_runners` are keyed `'stamp'`, so admission raises
`KeyError('postage')` (the `stamp_cap` worker itself asserts
`cr.type == 'postage'`, so the `'stamp'` key is unreachable). -/
theorem postage_admission_crashes :
    crPostage.type = "postage"
    ∧ admitStep s0 crPostage false "t0" = .crash (.keyError "postage")
    ∧ (initTapThreads.map Prod.fst).contains "postage" = false
    ∧ capRunners "postage" = none
    ∧ crAdc.type = "engineering"
    ∧ (admitStep s0 crAdc false "t0").isSpawned = true
    ∧ (admitStep s0 crAdc false "t0").reqStatus = some "running"
    ∧ (admitStep s0 crPhoton false "t0").isSpawned = true
    ∧ (admitStep s0 crPhoton false "t0").reqStatus = some "running" := by
  refine ⟨rfl, rfl, by decide, by decide, rfl, rfl, rfl, rfl, rfl⟩

theorem cleanup_fold_queues (l : List (String × TapThread)) :
    ∀ acc : SchedState × Bool,
      (l.foldl cleanupStep acc).1.toCheck = acc.1.toCheck
      ∧ (l.foldl cleanupStep acc).1.checked = acc.1.checked := by
  induction l with
  | nil => intro acc; exact ⟨rfl, rfl⟩
  | cons kt rest ih =>
    intro acc
    rw [List.foldl_cons]
    have h := ih (cleanupStep acc kt)
    refine ⟨?_, ?_⟩
    · rw [h.1]
      rfl
    · rw [h.2]
      rfl

/-- C10: whenever at least one worker thread has terminated, the reap step
moves every stale-queue request back onto the fresh queue (and empties the
stale queue) before the release loop runs — and it does so for any contents
of the configuration manager, i.e. whether or not releasing the finished
requests' configurations changes the effective configuration. -/
theorem cleanup_requeues_stale_on_completion (s : SchedState)
    (h : s.completedTaps ≠ []) :
    (cleanupCompleted s).1.toCheck = s.toCheck ++ s.checked
    ∧ (cleanupCompleted s).1.checked = []
    ∧ ∀ m : FeedlineConfigManager,
        (cleanupCompleted { s with manager := m }).1.toCheck
          = s.toCheck ++ s.checked
        ∧ (cleanupCompleted { s with manager := m }).1.checked = [] := by
  have hie : s.completedTaps.isEmpty = false := by
    cases hc : s.completedTaps with
    | nil => exact absurd hc h
    | cons a l => rfl
  have main : ∀ st : SchedState, st.completedTaps.isEmpty = false →
      (cleanupCompleted st).1.toCheck = st.toCheck ++ st.checked
      ∧ (cleanupCompleted st).1.checked = [] := by
    intro st hst
    have h2 := cleanup_fold_queues st.completedTaps
      ({ st with toCheck := st.toCheck ++ st.checked, checked := [] }, false)
    simp only [cleanupCompleted, hst, Bool.false_eq_true, if_false]
    exact ⟨by rw [h2.1], by rw [h2.2]⟩
  refine ⟨(main s hie).1, (main s hie).2, ?_⟩
  intro m
  exact ⟨(main { s with manager := m } hie).1,
    (main { s with manager := m } hie).2⟩

/-- Witness for `cleanup_requeues_stale_on_completion`: the state `sDead`
whose photon worker has terminated. -/
theorem cleanup_requeues_stale_on_completion_witness :
    (cleanupCompleted sDead).1.toCheck = sDead.toCheck ++ sDead.checked
    ∧ (cleanupCompleted sDead).1.checked = [] :=
  ⟨(cleanup_requeues_stale_on_completion sDead (by decide)).1,
   (cleanup_requeues_stale_on_completion sDead (by decide)).2.1⟩

end Mkidgen3
